import Mathlib

/-!
Verification development for the gambling-risk prediction client
(`src/App.tsx` and the earlier variant `src/unnamed/part_000`).

The embedding models, from the source:
  - the yup validation schema of `src/unnamed/part_000` lines 22-32
    (`yup.number().required()` for the four free numeric fields,
    `yup.number().integer().required()` for `TotalGames`, and
    `yup.string().oneOf([...]).required()` for `model_name`),
    including yup's numeric cast transform (remove all whitespace, cast the
    empty remainder to `NaN`, otherwise apply ECMAScript `ToNumber`);
  - the request construction of `onSubmit` (`part_000` lines 50-73,
    `App.tsx` lines 98-121): `POST {API_BASE}/predict` with header
    `Content-Type: application/json` and a JSON body holding exactly the
    six form keys, the five numeric ones re-coerced with
    `parseFloat`/`parseInt(·, 10)` from the resolver-cast values;
  - the `result`/`loading` React state driven by `onSubmit`
    (`setLoading(true)`; `await fetch`; `setResult(json)` on any parsed
    body with no shape or HTTP-status check; `catch` swallowing the error
    with `console.error`; `finally setLoading(false)`);
  - `getRiskLevel` (`App.tsx` lines 123-136), a lookup in the `levels`
    object keyed by the JavaScript property key of `cluster`, falling back
    to the `Unknown` style.

JavaScript numbers are modelled exactly as rationals (`ℚ`) together with
the special values `Infinity`, `-Infinity` and `NaN`; IEEE-754 double
rounding is not modelled.  `App.tsx`'s schema variant (string-typed fields
with a custom numeric transform) is not embedded; the validation claims
are settled on the `part_000` schema.
-/

/-- A JavaScript number: a finite value (modelled exactly as a rational),
positive or negative infinity, or `NaN`. -/
inductive JsNum where
  | num (q : ℚ)
  | inf (pos : Bool)
  | nan
deriving DecidableEq

/-- yup's `number` type check (`typeof v === 'number' && !isNaN(v)`):
true for every numeric value except `NaN`, including the infinities. -/
def JsNum.isNumber : JsNum → Bool
  | .num _ => true
  | .inf _ => true
  | .nan => false

/-- The whitespace characters matched by the regex `\s` that can occur in
the text inputs modelled here (ASCII forms; exotic Unicode spaces are not
modelled). -/
def isWsChar (c : Char) : Bool :=
  c = ' ' ∨ c = '\t' ∨ c = '\n' ∨ c = '\r' ∨ c = '\x0b' ∨ c = '\x0c'

/-- `value.replace(/\s/g, '')`: remove every whitespace character. -/
def stripWs (s : String) : String :=
  String.mk (s.toList.filter (fun c => !isWsChar c))

/-- Numeric value of a list of decimal digit characters. -/
def digitsToNat (ds : List Char) : ℕ :=
  ds.foldl (fun a c => 10 * a + (c.toNat - 48)) 0

/-- Hexadecimal digit predicate (`0-9a-fA-F`). -/
def isHexDigitChar (c : Char) : Bool :=
  c.isDigit ∨ ('a' ≤ c ∧ c ≤ 'f') ∨ ('A' ≤ c ∧ c ≤ 'F')

/-- Value of one hexadecimal digit character. -/
def hexDigitVal (c : Char) : ℕ :=
  if c.isDigit then c.toNat - 48
  else if 'a' ≤ c then c.toNat - 87
  else c.toNat - 55

/-- Numeric value of a digit list in base `b` with digit values `dv`. -/
def digitsToNatBase (b : ℕ) (dv : Char → ℕ) (ds : List Char) : ℕ :=
  ds.foldl (fun a c => b * a + dv c) 0

/-- Exponent part of a decimal literal: empty (exponent 0) or
`e`/`E`, an optional sign, and a nonempty digit run.  `none` when the
remaining characters are not a well-formed exponent part. -/
def parseExpTail : List Char → Option ℤ
  | [] => some 0
  | c :: rest =>
    if c = 'e' ∨ c = 'E' then
      match rest with
      | '+' :: ds =>
          if ds ≠ [] ∧ ds.all Char.isDigit then some (digitsToNat ds) else none
      | '-' :: ds =>
          if ds ≠ [] ∧ ds.all Char.isDigit then some (-(digitsToNat ds : ℤ)) else none
      | ds =>
          if ds ≠ [] ∧ ds.all Char.isDigit then some (digitsToNat ds) else none
    else none

/-- Value of a decimal literal with integer digits `ip`, fraction digits
`fp` and exponent `e`. -/
def decimalValue (ip fp : List Char) (e : ℤ) : ℚ :=
  let mant : ℚ := (digitsToNat ip : ℚ) + (digitsToNat fp : ℚ) / (10 : ℚ) ^ fp.length
  if 0 ≤ e then mant * (10 : ℚ) ^ e.toNat else mant / (10 : ℚ) ^ (-e).toNat

/-- ECMAScript `StrUnsignedDecimalLiteral` without the `Infinity` form:
`digits [. digits] [exp]` or `. digits [exp]`. -/
def parseUnsignedDecimal (cs : List Char) : Option ℚ :=
  let p := cs.span Char.isDigit
  match p.2 with
  | '.' :: rest2 =>
      let p2 := rest2.span Char.isDigit
      if p.1 = [] ∧ p2.1 = [] then none
      else (parseExpTail p2.2).map (fun e => decimalValue p.1 p2.1 e)
  | _ =>
      if p.1 = [] then none
      else (parseExpTail p.2).map (fun e => decimalValue p.1 [] e)

/-- Signed part of `ToNumber` on a string: optional sign followed by
`Infinity` or an unsigned decimal literal. -/
def parseSignedPart (cs : List Char) : Option JsNum :=
  let signed :=
    match cs with
    | '+' :: rest => (false, rest)
    | '-' :: rest => (true, rest)
    | _ => (false, cs)
  if signed.2 = "Infinity".toList then some (JsNum.inf (!signed.1))
  else (parseUnsignedDecimal signed.2).map
    (fun q => JsNum.num (if signed.1 then -q else q))

/-- ECMAScript `ToNumber` applied to a whitespace-free string: hexadecimal,
octal and binary integer literals (no sign allowed), or a signed decimal
literal / `Infinity`; anything else is `NaN`. -/
def jsStringToNum (t : String) : JsNum :=
  match t.toList with
  | '0' :: 'x' :: ds =>
      if ds ≠ [] ∧ ds.all isHexDigitChar then .num (digitsToNatBase 16 hexDigitVal ds) else .nan
  | '0' :: 'X' :: ds =>
      if ds ≠ [] ∧ ds.all isHexDigitChar then .num (digitsToNatBase 16 hexDigitVal ds) else .nan
  | '0' :: 'o' :: ds =>
      if ds ≠ [] ∧ ds.all (fun c => '0' ≤ c ∧ c ≤ '7') then .num (digitsToNatBase 8 (fun c => c.toNat - 48) ds) else .nan
  | '0' :: 'O' :: ds =>
      if ds ≠ [] ∧ ds.all (fun c => '0' ≤ c ∧ c ≤ '7') then .num (digitsToNatBase 8 (fun c => c.toNat - 48) ds) else .nan
  | '0' :: 'b' :: ds =>
      if ds ≠ [] ∧ ds.all (fun c => c = '0' ∨ c = '1') then .num (digitsToNatBase 2 (fun c => c.toNat - 48) ds) else .nan
  | '0' :: 'B' :: ds =>
      if ds ≠ [] ∧ ds.all (fun c => c = '0' ∨ c = '1') then .num (digitsToNatBase 2 (fun c => c.toNat - 48) ds) else .nan
  | cs => (parseSignedPart cs).getD JsNum.nan

/-- yup's numeric cast transform (`yup/lib/number.js`): on a string value,
remove all whitespace, return `NaN` for the empty result, otherwise apply
unary `+` (ECMAScript `ToNumber`).  A final non-number falls through to
`parseFloat`, which maps `NaN` to `NaN` (identity in this model). -/
def yupNumberCast (s : String) : JsNum :=
  let t := stripWs s
  if t = "" then JsNum.nan else jsStringToNum t

/-- A JSON value, as produced by `res.json()` or serialized by
`JSON.stringify`. -/
inductive Json where
  | null
  | bool (b : Bool)
  | num (q : ℚ)
  | str (s : String)
  | arr (elems : List Json)
  | obj (fields : List (String × Json))

/-- JavaScript member access `j.k` on a decoded JSON value: the field of an
object, `undefined` (here `none`) otherwise. -/
def Json.getField : Json → String → Option Json
  | Json.obj fields, k => fields.lookup k
  | _, _ => none

/-- The raw form values of `FormData` (`App.tsx` lines 21-28, `part_000`
lines 12-19): all six fields captured as text. -/
structure FormData where
  Bet : String
  TotalGames : String
  TotalProfit : String
  TotalLosses : String
  CashedOut : String
  model_name : String

/-- The five model identifiers of the schema's `oneOf` whitelist
(`part_000` line 30, `App.tsx` line 54). -/
def modelNames : List String := ["logreg", "randforest", "gradboost", "svm_rbf", "mlp"]

/-- `yup.number().required()` (`part_000` lines 23, 25-27): the cast value
must pass the number type check (any non-`NaN` number, infinities
included); `required` then only rejects `undefined`/`null`, which a cast
string never is. -/
def numberRequired (s : String) : Bool :=
  (yupNumberCast s).isNumber

/-- `yup.number().integer().required()` (`part_000` line 24): additionally
`Number.isInteger` must hold of the cast value — true exactly for finite
values with no fractional part, false for the infinities and `NaN`. -/
def numberIntegerRequired (s : String) : Bool :=
  match yupNumberCast s with
  | JsNum.num q => decide (q.den = 1)
  | _ => false

/-- `yup.string().oneOf([...]).required()` (`part_000` lines 28-31): the
value must be a case-sensitive exact member of the whitelist. -/
def modelNameOneOf (s : String) : Bool :=
  decide (s ∈ modelNames)

/-- The fields rejected by the schema, in declaration order.  The resolver
validates with `abortEarly: false` (`@hookform/resolvers` yupResolver), so
every failing field is collected, not only the first. -/
def invalidFields (d : FormData) : List String :=
  (if numberRequired d.Bet then [] else ["Bet"]) ++
  (if numberIntegerRequired d.TotalGames then [] else ["TotalGames"]) ++
  (if numberRequired d.TotalProfit then [] else ["TotalProfit"]) ++
  (if numberRequired d.TotalLosses then [] else ["TotalLosses"]) ++
  (if numberRequired d.CashedOut then [] else ["CashedOut"]) ++
  (if modelNameOneOf d.model_name then [] else ["model_name"])

/-- The resolver-cast form data handed to `onSubmit` on validation
success: yup's cast (numeric) values for the five numeric fields, the
string for `model_name`. -/
structure CastData where
  Bet : JsNum
  TotalGames : JsNum
  TotalProfit : JsNum
  TotalLosses : JsNum
  CashedOut : JsNum
  model_name : String

/-- Casting every numeric field of the form with yup's number transform. -/
def yupCastForm (d : FormData) : CastData :=
  ⟨yupNumberCast d.Bet, yupNumberCast d.TotalGames, yupNumberCast d.TotalProfit,
   yupNumberCast d.TotalLosses, yupNumberCast d.CashedOut, d.model_name⟩

/-- `parseFloat(v)` applied to an already numeric value `v`: JavaScript
stringifies `v` and re-parses it, which round-trips every number
(including the infinities); `NaN` stays `NaN`. -/
def jsParseFloatOfNum : JsNum → JsNum
  | JsNum.num q => JsNum.num q
  | JsNum.inf b => JsNum.inf b
  | JsNum.nan => JsNum.nan

/-- Truncation toward zero, as `parseInt` performs on the leading integer
digits of a plain decimal rendering. -/
def truncTowardZero (q : ℚ) : ℤ :=
  if 0 ≤ q then ⌊q⌋ else ⌈q⌉

/-- The signed leading significant digit of a nonzero rational: what
`parseInt` recovers from the exponential rendering `d.dd…e±k` of a number
outside the plain-notation range. -/
def leadingSigDigit (q : ℚ) : ℤ :=
  (if q < 0 then -1 else 1) * ⌊|q| / (10 : ℚ) ^ (Int.log 10 |q|)⌋

/-- `parseInt(v, 10)` applied to an already numeric value `v`: JavaScript
stringifies `v` and parses the leading integer digits.  `Number::toString`
uses plain decimal notation for `10⁻⁶ ≤ |v| < 10²¹` (and for zero), where
`parseInt` recovers the integer part truncated toward zero; outside that
range it uses exponential notation, of which `parseInt` reads only the
signed leading digit.  `±Infinity` and `NaN` stringify to non-numeric text,
giving `NaN`. -/
def jsParseIntOfNum : JsNum → JsNum
  | JsNum.num q =>
      if q = 0 then JsNum.num 0
      else if 1 / (10 : ℚ) ^ (6 : ℕ) ≤ |q| ∧ |q| < (10 : ℚ) ^ (21 : ℕ) then
        JsNum.num ((truncTowardZero q : ℤ) : ℚ)
      else JsNum.num ((leadingSigDigit q : ℤ) : ℚ)
  | JsNum.inf _ => JsNum.nan
  | JsNum.nan => JsNum.nan

/-- `JSON.stringify` of a number: finite values serialize as JSON numbers;
`Infinity`, `-Infinity` and `NaN` serialize as `null`. -/
def jsNumToJson : JsNum → Json
  | JsNum.num q => Json.num q
  | JsNum.inf _ => Json.null
  | JsNum.nan => Json.null

/-- The base URL constant (`App.tsx` line 18, `part_000` line 9). -/
def API_BASE : String := "https://YOUR_NGROK_URL.ngrok-free.app"

/-- The outgoing HTTP request assembled by `onSubmit`'s `fetch` call. -/
structure Request where
  url : String
  method : String
  contentType : String
  body : List (String × Json)

/-- The request built in `onSubmit` (`part_000` lines 53-65): the spread
`{...data}` contributes exactly the six `FormData` keys in declaration
order, then the five numeric keys are overwritten with
`parseFloat`/`parseInt(·, 10)` of the (already cast) values, and the whole
object is `JSON.stringify`-ed to `POST {API_BASE}/predict` with
`Content-Type: application/json`. -/
def predictRequest (data : CastData) : Request :=
  { url := API_BASE ++ "/predict"
    method := "POST"
    contentType := "application/json"
    body := [
      ("Bet", jsNumToJson (jsParseFloatOfNum data.Bet)),
      ("TotalGames", jsNumToJson (jsParseIntOfNum data.TotalGames)),
      ("TotalProfit", jsNumToJson (jsParseFloatOfNum data.TotalProfit)),
      ("TotalLosses", jsNumToJson (jsParseFloatOfNum data.TotalLosses)),
      ("CashedOut", jsNumToJson (jsParseFloatOfNum data.CashedOut)),
      ("model_name", Json.str data.model_name)] }

/-- What a press of the submit button does before any network response:
either the resolver reports the failing fields and `onSubmit` is never
invoked (no network call), or validation passes and the request is
issued. -/
inductive SubmitAction where
  | validationFailure (fields : List String)
  | request (req : Request)

/-- `handleSubmit(onSubmit)` (`part_000` line 103, `App.tsx` line 222):
react-hook-form runs the resolver; on any error it only publishes the
field errors, otherwise it calls `onSubmit` with the cast values, which
issues the fetch. -/
def handleSubmit (raw : FormData) : SubmitAction :=
  if invalidFields raw = [] then SubmitAction.request (predictRequest (yupCastForm raw))
  else SubmitAction.validationFailure (invalidFields raw)

/-- One entry of the `levels` object of `getRiskLevel`
(`App.tsx` lines 124-128). -/
structure RiskStyle where
  label : String
  color : String
  bg : String
deriving DecidableEq

/-- `levels[0]`. -/
def lowLevel : RiskStyle := ⟨"Low Risk", "#4CAF50", "#E8F5E8"⟩

/-- `levels[1]`. -/
def mediumLevel : RiskStyle := ⟨"Medium Risk", "#FF9800", "#FFF3E0"⟩

/-- `levels[2]`. -/
def highLevel : RiskStyle := ⟨"High Risk", "#F44336", "#FFEBEE"⟩

/-- The `|| {label: "Unknown", ...}` fallback of `getRiskLevel`. -/
def unknownLevel : RiskStyle := ⟨"Unknown", "#757575", "#F5F5F5"⟩

/-- `getRiskLevel` (`App.tsx` lines 123-136) on a numeric `cluster`: the
property lookup `levels[cluster]` converts the number to its property key,
which equals `"0"`, `"1"` or `"2"` exactly when the value is 0, 1 or 2;
any other number (negative, fractional, or ≥ 3) misses and falls back to
the `Unknown` style. -/
def getRiskLevel (cluster : ℚ) : RiskStyle :=
  if cluster = 0 then lowLevel
  else if cluster = 1 then mediumLevel
  else if cluster = 2 then highLevel
  else unknownLevel

/-- `getRiskLevel` as invoked on `result.cluster`, which is whatever the
decoded JSON held: `levels[cluster]` keys the lookup by the JavaScript
property key, so the strings `"0"`, `"1"`, `"2"` hit the same entries as
the numbers 0, 1, 2, while other strings, booleans, `null` and plain
objects miss and fall back to the `Unknown` style.  JavaScript's key
coercion of arrays (`String([0]) = "0"`, so a singleton array can hit a
`levels` entry) is not modelled here: this embedding maps every array to
the fallback, and no theorem exercises an array-valued `cluster`. -/
def getRiskLevelOfJson : Json → RiskStyle
  | Json.num q => getRiskLevel q
  | Json.str s =>
      if s = "0" then lowLevel
      else if s = "1" then mediumLevel
      else if s = "2" then highLevel
      else unknownLevel
  | _ => unknownLevel

/-- The risk style rendered for a published result object: `getRiskLevel`
applied to `result.cluster` (a missing field reads as `undefined`, whose
property key misses the `levels` object). -/
def renderedRisk (result : Json) : RiskStyle :=
  match result.getField "cluster" with
  | some v => getRiskLevelOfJson v
  | none => unknownLevel

/-- The component state touched by `onSubmit`: `result` (`setResult`) and
`loading` (`setLoading`).  The result card renders whenever `result` is
non-null. -/
structure AppState where
  result : Option Json
  loading : Bool

/-- How one submission's network phase ends: the response body parsed as
JSON (`await res.json()`, for any HTTP status), or a rejection anywhere in
the `fetch`/`json()` chain. -/
inductive FetchOutcome where
  | json (body : Json)
  | error

/-- One complete run of `onSubmit` (`part_000` lines 50-73, `App.tsx`
lines 98-121): `setLoading(true)`; await the network; on a parsed body
`setResult(json)` — with no shape check and no `res.ok` check; on a
rejection the `catch` block only logs (`console.error`), so no exception
escapes the handler and `result` is not written; `finally
setLoading(false)`. -/
def onSubmitRun (s : AppState) (o : FetchOutcome) : AppState :=
  let s1 : AppState := { s with loading := true }
  match o with
  | FetchOutcome.json j => { s1 with result := some j, loading := false }
  | FetchOutcome.error => { s1 with loading := false }

/-- Interleaved events of overlapping `onSubmit` runs on the single JS
thread: `start i` is submission `i` entering `onSubmit` (its synchronous
prefix, `setLoading(true)`), and `resolve i o` is submission `i`'s awaited
network phase completing with outcome `o`, running the rest of its handler
atomically.  The index `i` only labels traces: the handler itself records
no token and inspects no index. -/
inductive SubmitEvent where
  | start (i : ℕ)
  | resolve (i : ℕ) (o : FetchOutcome)

/-- Effect of one event on the component state, exactly as the handler's
code reads: every arriving parsed response calls `setResult`, whichever
submission it belongs to. -/
def stepSubmit (s : AppState) (e : SubmitEvent) : AppState :=
  match e with
  | SubmitEvent.start _ => { s with loading := true }
  | SubmitEvent.resolve _ (FetchOutcome.json j) => { s with result := some j, loading := false }
  | SubmitEvent.resolve _ FetchOutcome.error => { s with loading := false }

/-- Running a burst of interleaved submission events. -/
def runSubmits (s : AppState) (es : List SubmitEvent) : AppState :=
  es.foldl stepSubmit s

/-- How many events of a trace write the published `result` (terminal
`setResult` transitions). -/
def resultWrites (es : List SubmitEvent) : ℕ :=
  (es.filter (fun e =>
    match e with
    | SubmitEvent.resolve _ (FetchOutcome.json _) => true
    | _ => false)).length

/-- The confidence figure the result card displays (`App.tsx` line 275
`(result.confidence * 100).toFixed(1)`, bar width line 270; `part_000`
line 118): the multiplication is not clamped. -/
def confidencePercent (confidence : ℚ) : ℚ :=
  confidence * 100

/-! ### Evaluation lemmas for concrete casts -/

theorem yupNumberCast_ten : yupNumberCast "10" = JsNum.num 10 := by
  have hd0 : digitsToNat [] = 0 := rfl
  have hd1 : digitsToNat ['1', '0'] = 10 := rfl
  have h : yupNumberCast "10" = JsNum.num (decimalValue ['1', '0'] [] 0) := rfl
  rw [h]
  simp only [decimalValue, hd0, hd1, List.length_nil]
  norm_num

theorem yupNumberCast_three : yupNumberCast "3" = JsNum.num 3 := by
  have hd0 : digitsToNat [] = 0 := rfl
  have hd1 : digitsToNat ['3'] = 3 := rfl
  have h : yupNumberCast "3" = JsNum.num (decimalValue ['3'] [] 0) := rfl
  rw [h]
  simp only [decimalValue, hd0, hd1, List.length_nil]
  norm_num

theorem yupNumberCast_five : yupNumberCast "5" = JsNum.num 5 := by
  have hd0 : digitsToNat [] = 0 := rfl
  have hd1 : digitsToNat ['5'] = 5 := rfl
  have h : yupNumberCast "5" = JsNum.num (decimalValue ['5'] [] 0) := rfl
  rw [h]
  simp only [decimalValue, hd0, hd1, List.length_nil]
  norm_num

theorem yupNumberCast_two : yupNumberCast "2" = JsNum.num 2 := by
  have hd0 : digitsToNat [] = 0 := rfl
  have hd1 : digitsToNat ['2'] = 2 := rfl
  have h : yupNumberCast "2" = JsNum.num (decimalValue ['2'] [] 0) := rfl
  rw [h]
  simp only [decimalValue, hd0, hd1, List.length_nil]
  norm_num

theorem yupNumberCast_seven : yupNumberCast "7" = JsNum.num 7 := by
  have hd0 : digitsToNat [] = 0 := rfl
  have hd1 : digitsToNat ['7'] = 7 := rfl
  have h : yupNumberCast "7" = JsNum.num (decimalValue ['7'] [] 0) := rfl
  rw [h]
  simp only [decimalValue, hd0, hd1, List.length_nil]
  norm_num

theorem yupNumberCast_neg_five : yupNumberCast "-5" = JsNum.num (-5) := by
  have hd0 : digitsToNat [] = 0 := rfl
  have hd1 : digitsToNat ['5'] = 5 := rfl
  have h : yupNumberCast "-5" = JsNum.num (-decimalValue ['5'] [] 0) := rfl
  rw [h]
  simp only [decimalValue, hd0, hd1, List.length_nil]
  norm_num

theorem yupNumberCast_one : yupNumberCast "1" = JsNum.num 1 := by
  have hd0 : digitsToNat [] = 0 := rfl
  have hd1 : digitsToNat ['1'] = 1 := rfl
  have h : yupNumberCast "1" = JsNum.num (decimalValue ['1'] [] 0) := rfl
  rw [h]
  simp only [decimalValue, hd0, hd1, List.length_nil]
  norm_num

theorem yupNumberCast_one_e22 : yupNumberCast "1e22" = JsNum.num ((10 : ℚ) ^ (22 : ℕ)) := by
  have hd0 : digitsToNat [] = 0 := rfl
  have hd1 : digitsToNat ['1'] = 1 := rfl
  have h : yupNumberCast "1e22" = JsNum.num (decimalValue ['1'] [] 22) := rfl
  rw [h]
  simp only [decimalValue, hd0, hd1, List.length_nil, show Int.toNat 22 = 22 from rfl]
  norm_num

theorem yupNumberCast_three_point_five : yupNumberCast "3.5" = JsNum.num (7 / 2) := by
  have hd1 : digitsToNat ['3'] = 3 := rfl
  have hd2 : digitsToNat ['5'] = 5 := rfl
  have h : yupNumberCast "3.5" = JsNum.num (decimalValue ['3'] ['5'] 0) := rfl
  rw [h]
  simp only [decimalValue, hd1, hd2, List.length_cons, List.length_nil]
  norm_num

/-- `parseInt(n, 10)` round-trips an integral number whose magnitude stays
below `10²¹` (plain decimal notation). -/
theorem jsParseIntOfNum_intCast (m : ℤ) (h : |m| < 10 ^ 21) :
    jsParseIntOfNum (JsNum.num (m : ℚ)) = JsNum.num (m : ℚ) := by
  by_cases h0 : (m : ℚ) = 0
  · simp [jsParseIntOfNum, h0]
  · simp only [jsParseIntOfNum, if_neg h0]
    have hm0 : m ≠ 0 := by
      intro hh
      apply h0
      rw [hh, Int.cast_zero]
    have h1le : (1 : ℚ) ≤ |(m : ℚ)| := by
      rw [← Int.cast_abs]
      exact_mod_cast Int.one_le_abs hm0
    have hcond : 1 / (10 : ℚ) ^ (6 : ℕ) ≤ |(m : ℚ)| ∧ |(m : ℚ)| < (10 : ℚ) ^ (21 : ℕ) := by
      constructor
      · calc 1 / (10 : ℚ) ^ (6 : ℕ) ≤ 1 := by norm_num
          _ ≤ |(m : ℚ)| := h1le
      · rw [← Int.cast_abs]
        exact_mod_cast h
    rw [if_pos hcond]
    have htr : truncTowardZero ((m : ℚ)) = m := by
      unfold truncTowardZero
      split_ifs
      · exact Int.floor_intCast m
      · exact Int.ceil_intCast m
    rw [htr]

/-- `parseInt(n, 10)` does not round-trip an integral number at or above
`10²¹`: `10²²` stringifies to `"1e+22"`, of which `parseInt` reads only
the leading digit, giving 1. -/
theorem jsParseIntOfNum_ten_pow_22 :
    jsParseIntOfNum (JsNum.num ((10 : ℚ) ^ (22 : ℕ))) = JsNum.num 1 := by
  have hpos : (0 : ℚ) < (10 : ℚ) ^ (22 : ℕ) := by positivity
  have habs : |(10 : ℚ) ^ (22 : ℕ)| = (10 : ℚ) ^ (22 : ℕ) := abs_of_pos hpos
  have h0 : ¬ ((10 : ℚ) ^ (22 : ℕ)) = 0 := by positivity
  have hnotcond : ¬ (1 / (10 : ℚ) ^ (6 : ℕ) ≤ |(10 : ℚ) ^ (22 : ℕ)| ∧
      |(10 : ℚ) ^ (22 : ℕ)| < (10 : ℚ) ^ (21 : ℕ)) := by
    intro hcon
    rw [habs] at hcon
    have hlt := hcon.2
    norm_num at hlt
  have hz : (10 : ℚ) ^ ((22 : ℤ)) = (10 : ℚ) ^ (22 : ℕ) := by
    rw [show ((22 : ℤ)) = (((22 : ℕ)) : ℤ) by norm_num, zpow_natCast]
  have hlog : Int.log 10 |(10 : ℚ) ^ (22 : ℕ)| = 22 := by
    rw [habs]
    have h10 : (10 : ℚ) = ((10 : ℕ) : ℚ) := by norm_num
    have hzp : ((10 : ℕ) : ℚ) ^ (22 : ℕ) = ((10 : ℕ) : ℚ) ^ ((22 : ℕ) : ℤ) :=
      (zpow_natCast _ 22).symm
    rw [h10, hzp, Int.log_zpow (by norm_num : 1 < 10)]
    norm_num
  have hlead : leadingSigDigit ((10 : ℚ) ^ (22 : ℕ)) = 1 := by
    unfold leadingSigDigit
    rw [if_neg (not_lt.mpr hpos.le), hlog, habs, one_mul, hz, div_self (ne_of_gt hpos)]
    exact Int.floor_one
  simp only [jsParseIntOfNum, if_neg h0, if_neg hnotcond, hlead]
  norm_num

/-! ### The claims -/

/-- C3: risk-tier classification is a total, pure, deterministic function
of the numeric cluster value: 0 ↦ Low, 1 ↦ Medium, 2 ↦ High, and every
other number ↦ Unknown.  (`getRiskLevel` is a function, so determinism is
definitional; the four styles carry the tier labels.) -/
theorem getRiskLevel_total_classification :
    (getRiskLevel 0 = lowLevel ∧ getRiskLevel 1 = mediumLevel ∧ getRiskLevel 2 = highLevel) ∧
    ∀ cluster : ℚ, cluster ≠ 0 → cluster ≠ 1 → cluster ≠ 2 →
      getRiskLevel cluster = unknownLevel := by
  refine ⟨⟨?_, ?_, ?_⟩, ?_⟩
  · norm_num [getRiskLevel]
  · norm_num [getRiskLevel]
  · norm_num [getRiskLevel]
  · intro cluster h0 h1 h2
    simp [getRiskLevel, h0, h1, h2]

/-- Witness for C3 at the concrete cluster 7. -/
theorem getRiskLevel_total_classification_witness :
    ((7 : ℚ) ≠ 0 ∧ (7 : ℚ) ≠ 1 ∧ (7 : ℚ) ≠ 2) ∧ getRiskLevel 7 = unknownLevel :=
  ⟨⟨by norm_num, by norm_num, by norm_num⟩,
    getRiskLevel_total_classification.2 7 (by norm_num) (by norm_num) (by norm_num)⟩

/-- C2 (code evaluated at the failing inputs): the displayed confidence
percentage is the bare product `confidence * 100`; at `confidence = 1.4`
the code shows 140, not a value clamped to 100, and at `confidence = -0.1`
it shows -10, not 0. -/
theorem confidencePercent_unclamped :
    confidencePercent (7 / 5) = 140 ∧ ¬ confidencePercent (7 / 5) ≤ 100 ∧
    confidencePercent (-1 / 10) = -10 := by
  refine ⟨?_, ?_, ?_⟩ <;> norm_num [confidencePercent]

/-- C10: when the network phase of `onSubmit` rejects, the handler's
`catch` only logs: the previously published `result` is left untouched
(so a prior success stays displayed), no error value replaces it, and the
run ends normally with `loading` reset to `false`. -/
theorem onSubmit_error_preserves_result :
    ∀ s : AppState, onSubmitRun s FetchOutcome.error = ⟨s.result, false⟩ := by
  intro s
  rfl

/-- C4 (code evaluated at the failing input): a 2xx response whose body
has the wrong shape is published anyway — `onSubmit` runs `setResult` on
any parsed JSON, `res.ok` is never consulted and no field is type-checked.
The body `{cluster: "high"}` renders a result card with the Unknown style,
and `{cluster: "0"}` renders the Low-risk style from a string-typed
cluster; neither ends in a failed state. -/
theorem malformed_response_published :
    onSubmitRun ⟨none, false⟩ (FetchOutcome.json (Json.obj [("cluster", Json.str "high")])) =
      ⟨some (Json.obj [("cluster", Json.str "high")]), false⟩ ∧
    renderedRisk (Json.obj [("cluster", Json.str "high")]) = unknownLevel ∧
    renderedRisk (Json.obj [("cluster", Json.str "0")]) = lowLevel := by
  refine ⟨rfl, rfl, rfl⟩

/-- C1 (code evaluated at the failing interleaving): two submissions are
issued before either response resolves; submission 2's response arrives
first, then submission 1's.  `onSubmit` has no request token, so both
responses write `result` (two terminal transitions) and the final
published value is the superseded first submission's — not the second
submission's outcome. -/
theorem onSubmit_burst_last_response_wins :
    runSubmits ⟨none, false⟩
      [SubmitEvent.start 1, SubmitEvent.start 2,
       SubmitEvent.resolve 2
         (FetchOutcome.json (Json.obj [("cluster", Json.num 1), ("confidence", Json.num (4 / 5))])),
       SubmitEvent.resolve 1
         (FetchOutcome.json (Json.obj [("cluster", Json.num 0), ("confidence", Json.num (9 / 10))]))] =
      ⟨some (Json.obj [("cluster", Json.num 0), ("confidence", Json.num (9 / 10))]), false⟩ ∧
    resultWrites
      [SubmitEvent.start 1, SubmitEvent.start 2,
       SubmitEvent.resolve 2
         (FetchOutcome.json (Json.obj [("cluster", Json.num 1), ("confidence", Json.num (4 / 5))])),
       SubmitEvent.resolve 1
         (FetchOutcome.json (Json.obj [("cluster", Json.num 0), ("confidence", Json.num (9 / 10))]))] = 2 :=
  ⟨rfl, rfl⟩

/-- C7: a submission whose `model_name` is not a case-sensitive member of
the five-identifier whitelist never reaches the network: the resolver
reports the failing fields (`model_name` among them) and `onSubmit` — and
with it the `fetch` — is never invoked. -/
theorem invalid_model_name_no_network :
    ∀ raw : FormData, raw.model_name ∉ modelNames →
      handleSubmit raw = SubmitAction.validationFailure (invalidFields raw) ∧
      "model_name" ∈ invalidFields raw ∧
      ∀ req : Request, handleSubmit raw ≠ SubmitAction.request req := by
  intro raw h
  have hm : modelNameOneOf raw.model_name = false := by
    simp only [modelNameOneOf, decide_eq_false_iff_not]
    exact h
  have hmem : "model_name" ∈ invalidFields raw := by
    simp [invalidFields, hm]
  have hne : invalidFields raw ≠ [] := List.ne_nil_of_mem hmem
  refine ⟨?_, hmem, ?_⟩
  · simp only [handleSubmit, if_neg hne]
  · intro req hcontra
    rw [handleSubmit, if_neg hne] at hcontra
    exact SubmitAction.noConfusion hcontra

/-- Witness for C7 at the concrete form with `model_name = "bogus"`. -/
theorem invalid_model_name_no_network_witness :
    ("bogus" ∉ modelNames) ∧
    (handleSubmit ⟨"1", "2", "3", "4", "5", "bogus"⟩ =
        SubmitAction.validationFailure (invalidFields ⟨"1", "2", "3", "4", "5", "bogus"⟩) ∧
      "model_name" ∈ invalidFields ⟨"1", "2", "3", "4", "5", "bogus"⟩ ∧
      ∀ req : Request,
        handleSubmit ⟨"1", "2", "3", "4", "5", "bogus"⟩ ≠ SubmitAction.request req) :=
  ⟨by decide, invalid_model_name_no_network ⟨"1", "2", "3", "4", "5", "bogus"⟩ (by decide)⟩

/-- C5 counterexample: the claim says text parsing to an infinity fails
validation, but `yup.number().required()` accepts `"Infinity"` — the cast
value is the number `Infinity`, which passes the number type check and is
not `undefined`/`null`. -/
theorem numberRequired_accepts_infinity :
    numberRequired "Infinity" = true ∧ yupNumberCast "Infinity" = JsNum.inf true :=
  ⟨by decide, by decide⟩

/-- C5 amended: `bet`, `totalProfit`, `totalLosses`, `cashedOut` pass
validation exactly when yup's numeric cast of the text (all whitespace
removed, then `ToNumber`) is non-`NaN` — finite reals of any sign pass,
empty and non-numeric text fail, but the infinities pass too, and interior
whitespace is tolerated (`" 1 2 "` casts to 12). -/
theorem numberRequired_iff_non_nan :
    (∀ s : String, numberRequired s = (yupNumberCast s).isNumber) ∧
    numberRequired "" = false ∧ numberRequired "abc" = false ∧
    numberRequired "-2.5" = true ∧ numberRequired "1e3" = true ∧
    numberRequired " 1 2 " = true ∧ numberRequired "-Infinity" = true :=
  ⟨fun s => rfl, by decide, by decide, by decide, by decide, by decide, by decide⟩

/-- C6 counterexample: the claim says `totalGames` must be ≥ 0, but
`yup.number().integer().required()` has no sign constraint: `"-5"` casts
to the negative integer -5 and passes validation. -/
theorem numberIntegerRequired_accepts_negative :
    numberIntegerRequired "-5" = true ∧ yupNumberCast "-5" = JsNum.num (-5) ∧ (-5 : ℚ) < 0 := by
  have hc := yupNumberCast_neg_five
  have hden : ((-5 : ℚ)).den = 1 := by
    rw [show ((-5 : ℚ)) = ((-5 : ℤ) : ℚ) by norm_num, Rat.den_intCast]
  refine ⟨?_, hc, by norm_num⟩
  simp [numberIntegerRequired, hc, hden]

/-- C6 amended: `totalGames` passes validation exactly when its text casts
to an integer of either sign (`Number.isInteger`): non-integer numeric
text, the infinities, and empty or non-numeric text fail, but negative
integers pass — the ≥ 0 bound of the claim is not enforced. -/
theorem numberIntegerRequired_iff_integer :
    (∀ s : String,
      numberIntegerRequired s = true ↔ ∃ m : ℤ, yupNumberCast s = JsNum.num (m : ℚ)) ∧
    numberIntegerRequired "3.5" = false ∧ numberIntegerRequired "Infinity" = false ∧
    numberIntegerRequired "" = false := by
  have main : ∀ s : String,
      numberIntegerRequired s = true ↔ ∃ m : ℤ, yupNumberCast s = JsNum.num (m : ℚ) := by
    intro s
    unfold numberIntegerRequired
    cases hc : yupNumberCast s with
    | num q =>
        simp only [decide_eq_true_eq]
        constructor
        · intro hden
          exact ⟨q.num, by rw [Rat.coe_int_num_of_den_eq_one hden]⟩
        · rintro ⟨m, hm⟩
          have hq : q = (m : ℚ) := by injection hm
          rw [hq, Rat.den_intCast]
    | inf b => simp
    | nan => simp
  refine ⟨main, ?_, by decide, by decide⟩
  rcases Bool.eq_false_or_eq_true (numberIntegerRequired "3.5") with hb | hb
  · exfalso
    rcases (main "3.5").mp hb with ⟨m, hm⟩
    rw [yupNumberCast_three_point_five] at hm
    have h72 : (7 / 2 : ℚ) = (m : ℚ) := by injection hm
    have h7 : (7 : ℤ) = 2 * m := by
      have h2m : (7 : ℚ) = 2 * (m : ℚ) := by linarith
      exact_mod_cast h2m
    omega
  · exact hb

/-- C8 counterexample: on the form with `bet = "Infinity"`,
`totalGames = "7x"`, `cashedOut = "abc"` (and the rest well-formed) the
validator reports only `TotalGames` and `CashedOut`.  The bet field is
malformed per the claim's rules — `"Infinity"` does not parse as a finite
real — yet it is not listed, so the failure does not enumerate every
malformed field. -/
theorem invalidFields_misses_infinity_field :
    invalidFields ⟨"Infinity", "7x", "1", "1", "abc", "logreg"⟩ = ["TotalGames", "CashedOut"] ∧
    yupNumberCast "Infinity" = JsNum.inf true ∧ yupNumberCast "abc" = JsNum.nan :=
  ⟨by decide, by decide, by decide⟩

/-- C8 amended: the validation failure enumerates exactly the fields that
fail the schema's own per-field rules — every such field (not only the
first, since the resolver validates with `abortEarly: false`) and never a
field whose own rule passes.  "Malformed" here is the schema's rule set
(cf. C5/C6), not the spec's finite/non-negative rules. -/
theorem invalidFields_exact :
    ∀ (d : FormData) (f : String),
      f ∈ invalidFields d ↔
        ((f = "Bet" ∧ numberRequired d.Bet = false) ∨
         (f = "TotalGames" ∧ numberIntegerRequired d.TotalGames = false) ∨
         (f = "TotalProfit" ∧ numberRequired d.TotalProfit = false) ∨
         (f = "TotalLosses" ∧ numberRequired d.TotalLosses = false) ∨
         (f = "CashedOut" ∧ numberRequired d.CashedOut = false) ∨
         (f = "model_name" ∧ modelNameOneOf d.model_name = false)) := by
  intro d f
  unfold invalidFields
  cases h1 : numberRequired d.Bet <;> cases h2 : numberIntegerRequired d.TotalGames <;>
    cases h3 : numberRequired d.TotalProfit <;> cases h4 : numberRequired d.TotalLosses <;>
      cases h5 : numberRequired d.CashedOut <;> cases h6 : modelNameOneOf d.model_name <;>
        simp [List.mem_append]

/-- C9 amended: a submission that passes validation issues exactly one
request — `POST {API_BASE}/predict`, `Content-Type: application/json`,
and a JSON body with exactly the keys `Bet`, `TotalGames`, `TotalProfit`,
`TotalLosses`, `CashedOut` and `model_name` (the whitelisted identifier) —
and *when* the five numeric inputs cast to finite values with
`|TotalGames| < 10²¹` the numeric body values are exactly the cast values,
`TotalGames` an integer.  Outside those bounds the original claim fails
(see the counterexample): validation still passes, but an infinite field
serializes as `null` and a `TotalGames` at or above `10²¹` serializes as
the leading digit of its exponential rendering. -/
theorem onSubmit_request_shape :
    ∀ (raw : FormData) (b p l c : ℚ) (m : ℤ),
      yupNumberCast raw.Bet = JsNum.num b →
      yupNumberCast raw.TotalGames = JsNum.num (m : ℚ) →
      yupNumberCast raw.TotalProfit = JsNum.num p →
      yupNumberCast raw.TotalLosses = JsNum.num l →
      yupNumberCast raw.CashedOut = JsNum.num c →
      |m| < 10 ^ 21 →
      raw.model_name ∈ modelNames →
      invalidFields raw = [] ∧
      handleSubmit raw = SubmitAction.request
        { url := API_BASE ++ "/predict"
          method := "POST"
          contentType := "application/json"
          body := [("Bet", Json.num b), ("TotalGames", Json.num (m : ℚ)),
                   ("TotalProfit", Json.num p), ("TotalLosses", Json.num l),
                   ("CashedOut", Json.num c), ("model_name", Json.str raw.model_name)] } := by
  intro raw b p l c m hB hG hP hL hC hm hmn
  have h1 : numberRequired raw.Bet = true := by
    rw [numberRequired, hB]
    rfl
  have h3 : numberRequired raw.TotalProfit = true := by
    rw [numberRequired, hP]
    rfl
  have h4 : numberRequired raw.TotalLosses = true := by
    rw [numberRequired, hL]
    rfl
  have h5 : numberRequired raw.CashedOut = true := by
    rw [numberRequired, hC]
    rfl
  have h2 : numberIntegerRequired raw.TotalGames = true := by
    simp [numberIntegerRequired, hG, Rat.den_intCast]
  have h6 : modelNameOneOf raw.model_name = true := by
    simp [modelNameOneOf, hmn]
  have hinv : invalidFields raw = [] := by
    simp [invalidFields, h1, h2, h3, h4, h5, h6]
  have hcast : yupCastForm raw =
      ⟨JsNum.num b, JsNum.num ((m : ℤ) : ℚ), JsNum.num p, JsNum.num l, JsNum.num c,
        raw.model_name⟩ := by
    unfold yupCastForm
    rw [hB, hG, hP, hL, hC]
  refine ⟨hinv, ?_⟩
  unfold handleSubmit
  rw [if_pos hinv, hcast]
  unfold predictRequest
  dsimp only
  rw [jsParseIntOfNum_intCast m hm]
  simp only [jsParseFloatOfNum, jsNumToJson]

/-- Witness for C9 at the concrete form
`{Bet: "10", TotalGames: "3", TotalProfit: "5", TotalLosses: "2",
CashedOut: "7", model_name: "logreg"}`. -/
theorem onSubmit_request_shape_witness :
    (yupNumberCast "10" = JsNum.num 10 ∧ yupNumberCast "3" = JsNum.num ((3 : ℤ) : ℚ) ∧
      yupNumberCast "5" = JsNum.num 5 ∧ yupNumberCast "2" = JsNum.num 2 ∧
      yupNumberCast "7" = JsNum.num 7 ∧ |(3 : ℤ)| < 10 ^ 21 ∧ "logreg" ∈ modelNames) ∧
    (invalidFields ⟨"10", "3", "5", "2", "7", "logreg"⟩ = [] ∧
      handleSubmit ⟨"10", "3", "5", "2", "7", "logreg"⟩ = SubmitAction.request
        { url := API_BASE ++ "/predict"
          method := "POST"
          contentType := "application/json"
          body := [("Bet", Json.num 10), ("TotalGames", Json.num ((3 : ℤ) : ℚ)),
                   ("TotalProfit", Json.num 5), ("TotalLosses", Json.num 2),
                   ("CashedOut", Json.num 7), ("model_name", Json.str "logreg")] }) := by
  have hB := yupNumberCast_ten
  have hG : yupNumberCast "3" = JsNum.num ((3 : ℤ) : ℚ) := by
    rw [yupNumberCast_three]
    norm_num
  have hP := yupNumberCast_five
  have hL := yupNumberCast_two
  have hC := yupNumberCast_seven
  exact ⟨⟨hB, hG, hP, hL, hC, by norm_num, by decide⟩,
    onSubmit_request_shape ⟨"10", "3", "5", "2", "7", "logreg"⟩ 10 5 2 7 3
      hB hG hP hL hC (by norm_num) (by decide)⟩

/-- C9 counterexample: two submissions the code validates yet whose
serialized bodies do not carry the numeric value parsed from the input
text.  (a) `TotalGames = "1e22"` passes `integer()` — it casts to the
integer 10²² — but the body posts `TotalGames = 1`, because the cast value
lies outside the plain decimal notation range and `parseInt` reads only
the leading digit of `"1e+22"`.  (b) `Bet = "Infinity"` passes validation
(cf. C5) but the body posts `Bet = null`, because `JSON.stringify`
serializes `Infinity` as `null`. -/
theorem onSubmit_request_values_not_roundtripped :
    (invalidFields ⟨"1", "1e22", "1", "1", "1", "logreg"⟩ = [] ∧
      yupNumberCast "1e22" = JsNum.num ((10 : ℚ) ^ (22 : ℕ)) ∧
      handleSubmit ⟨"1", "1e22", "1", "1", "1", "logreg"⟩ = SubmitAction.request
        { url := API_BASE ++ "/predict"
          method := "POST"
          contentType := "application/json"
          body := [("Bet", Json.num 1), ("TotalGames", Json.num 1), ("TotalProfit", Json.num 1),
                   ("TotalLosses", Json.num 1), ("CashedOut", Json.num 1),
                   ("model_name", Json.str "logreg")] } ∧
      ((10 : ℚ) ^ (22 : ℕ)) ≠ 1) ∧
    (invalidFields ⟨"Infinity", "3", "1", "1", "1", "logreg"⟩ = [] ∧
      yupNumberCast "Infinity" = JsNum.inf true ∧
      handleSubmit ⟨"Infinity", "3", "1", "1", "1", "logreg"⟩ = SubmitAction.request
        { url := API_BASE ++ "/predict"
          method := "POST"
          contentType := "application/json"
          body := [("Bet", Json.null), ("TotalGames", Json.num 3), ("TotalProfit", Json.num 1),
                   ("TotalLosses", Json.num 1), ("CashedOut", Json.num 1),
                   ("model_name", Json.str "logreg")] }) := by
  have hone : numberRequired "1" = true := by decide
  have hinf : numberRequired "Infinity" = true := by decide
  have hmn : modelNameOneOf "logreg" = true := by decide
  have hden22 : (((10 : ℚ) ^ (22 : ℕ))).den = 1 := by
    rw [show ((10 : ℚ) ^ (22 : ℕ)) = (((10 ^ 22 : ℤ)) : ℚ) by norm_num, Rat.den_intCast]
  have hTG22 : numberIntegerRequired "1e22" = true := by
    simp [numberIntegerRequired, yupNumberCast_one_e22, hden22]
  have hden3 : ((3 : ℚ)).den = 1 := by
    rw [show ((3 : ℚ)) = (((3 : ℤ)) : ℚ) by norm_num, Rat.den_intCast]
  have hTG3 : numberIntegerRequired "3" = true := by
    simp [numberIntegerRequired, yupNumberCast_three, hden3]
  have hpi3 : jsParseIntOfNum (JsNum.num 3) = JsNum.num 3 := by
    rw [show ((3 : ℚ)) = (((3 : ℤ)) : ℚ) by norm_num]
    exact jsParseIntOfNum_intCast 3 (by norm_num)
  have hinvA : invalidFields ⟨"1", "1e22", "1", "1", "1", "logreg"⟩ = [] := by
    simp [invalidFields, hone, hTG22, hmn]
  have hinvB : invalidFields ⟨"Infinity", "3", "1", "1", "1", "logreg"⟩ = [] := by
    simp [invalidFields, hone, hinf, hTG3, hmn]
  have hcastA : yupCastForm ⟨"1", "1e22", "1", "1", "1", "logreg"⟩ =
      ⟨JsNum.num 1, JsNum.num ((10 : ℚ) ^ (22 : ℕ)), JsNum.num 1, JsNum.num 1, JsNum.num 1,
        "logreg"⟩ := by
    unfold yupCastForm
    rw [yupNumberCast_one, yupNumberCast_one_e22]
  have hcastB : yupCastForm ⟨"Infinity", "3", "1", "1", "1", "logreg"⟩ =
      ⟨JsNum.inf true, JsNum.num 3, JsNum.num 1, JsNum.num 1, JsNum.num 1, "logreg"⟩ := by
    unfold yupCastForm
    rw [yupNumberCast_one, yupNumberCast_three,
      show yupNumberCast "Infinity" = JsNum.inf true by decide]
  refine ⟨⟨hinvA, yupNumberCast_one_e22, ?_, by norm_num⟩, ⟨hinvB, by decide, ?_⟩⟩
  · unfold handleSubmit
    rw [if_pos hinvA, hcastA]
    unfold predictRequest
    dsimp only
    rw [jsParseIntOfNum_ten_pow_22]
    simp only [jsParseFloatOfNum, jsNumToJson]
  · unfold handleSubmit
    rw [if_pos hinvB, hcastB]
    unfold predictRequest
    dsimp only
    rw [hpi3]
    simp only [jsParseFloatOfNum, jsNumToJson]
